/-
  Verification of the ENACT (Energy & Carbon-Aware Technology) dashboard core:
  the eco-score computation (src/frontend/src/pages/Dashboard.jsx, `ecoScore`),
  the activity-breakdown aggregation
  (src/frontend/src/components/EmissionChart.jsx, `ActivityBreakdownChart`),
  the timer formatter (src/frontend/src/pages/Analyzer.jsx, `formatTime`),
  and the emission estimator contract of spec §4.1.

  JavaScript numbers are embedded as the type `JSNum`: an exact rational for
  every finite value, plus NaN and the two infinities.  The IEEE special-value
  propagation rules of the operators used by the source (comparison, subtract,
  multiply, divide, Math.max/min/round, isNaN, isFinite, and the `||` default
  idiom over falsy values 0/NaN/undefined) are modelled exactly; finite values
  carry exact rational arithmetic, which is faithful for every claim below
  since none depends on binary-rounding error.
-/
import Mathlib

/-- A JavaScript number: NaN, +Infinity, -Infinity, or a finite value
(modelled as an exact rational). -/
inductive JSNum where
  | nan : JSNum
  | inf : JSNum
  | ninf : JSNum
  | fin : ℚ → JSNum
deriving DecidableEq

namespace JSNum

/-- JavaScript falsiness for numbers: `0` and `NaN` are falsy, everything
else (including the infinities) is truthy. -/
def falsy : JSNum → Bool
  | nan => true
  | inf => false
  | ninf => false
  | fin q => decide (q = 0)

/-- JavaScript `<`: any comparison with NaN is false. -/
def lt : JSNum → JSNum → Bool
  | nan, _ => false
  | _, nan => false
  | inf, _ => false
  | ninf, ninf => false
  | ninf, _ => true
  | fin _, ninf => false
  | fin _, inf => true
  | fin a, fin b => decide (a < b)

/-- JavaScript `<=`: any comparison with NaN is false. -/
def le : JSNum → JSNum → Bool
  | nan, _ => false
  | _, nan => false
  | ninf, _ => true
  | inf, inf => true
  | inf, _ => false
  | fin _, inf => true
  | fin _, ninf => false
  | fin a, fin b => decide (a ≤ b)

/-- JavaScript `>` (i.e. `b < a`). -/
def gt (a b : JSNum) : Bool := lt b a

/-- JavaScript `===` on numbers (NaN is not equal to anything). -/
def eqNum : JSNum → JSNum → Bool
  | nan, _ => false
  | _, nan => false
  | inf, inf => true
  | inf, _ => false
  | ninf, ninf => true
  | ninf, _ => false
  | fin _, inf => false
  | fin _, ninf => false
  | fin a, fin b => decide (a = b)

/-- JavaScript subtraction with IEEE special-value propagation. -/
def sub : JSNum → JSNum → JSNum
  | nan, _ => nan
  | _, nan => nan
  | inf, inf => nan
  | inf, _ => inf
  | ninf, ninf => nan
  | ninf, _ => ninf
  | fin _, inf => ninf
  | fin _, ninf => inf
  | fin a, fin b => fin (a - b)

/-- JavaScript multiplication with IEEE special-value propagation
(`Infinity * 0 = NaN`). -/
def mul : JSNum → JSNum → JSNum
  | nan, _ => nan
  | _, nan => nan
  | inf, inf => inf
  | inf, ninf => ninf
  | inf, fin q => if q = 0 then nan else if 0 < q then inf else ninf
  | ninf, inf => ninf
  | ninf, ninf => inf
  | ninf, fin q => if q = 0 then nan else if 0 < q then ninf else inf
  | fin q, inf => if q = 0 then nan else if 0 < q then inf else ninf
  | fin q, ninf => if q = 0 then nan else if 0 < q then ninf else inf
  | fin a, fin b => fin (a * b)

/-- JavaScript division with IEEE special-value propagation
(`x/0` is ±Infinity for x ≠ 0 and NaN for x = 0; negative zero is not
distinguished, which is faithful for all inputs the claims range over). -/
def div : JSNum → JSNum → JSNum
  | nan, _ => nan
  | _, nan => nan
  | inf, inf => nan
  | inf, ninf => nan
  | inf, fin q => if 0 ≤ q then inf else ninf
  | ninf, inf => nan
  | ninf, ninf => nan
  | ninf, fin q => if 0 ≤ q then ninf else inf
  | fin _, inf => fin 0
  | fin _, ninf => fin 0
  | fin a, fin b =>
      if b = 0 then (if a = 0 then nan else if 0 < a then inf else ninf)
      else fin (a / b)

/-- `Math.max` on two numbers: NaN-propagating maximum. -/
def max : JSNum → JSNum → JSNum
  | nan, _ => nan
  | _, nan => nan
  | inf, _ => inf
  | _, inf => inf
  | ninf, b => b
  | a, ninf => a
  | fin a, fin b => fin (Max.max a b)

/-- `Math.min` on two numbers: NaN-propagating minimum. -/
def min : JSNum → JSNum → JSNum
  | nan, _ => nan
  | _, nan => nan
  | ninf, _ => ninf
  | _, ninf => ninf
  | inf, b => b
  | a, inf => a
  | fin a, fin b => fin (Min.min a b)

/-- `Math.round`: round half towards +∞; fixes NaN and the infinities. -/
def round : JSNum → JSNum
  | nan => nan
  | inf => inf
  | ninf => ninf
  | fin q => fin ((⌊q + 1/2⌋ : ℤ) : ℚ)

/-- JavaScript `isNaN` on a number. -/
def isNaN : JSNum → Bool
  | nan => true
  | _ => false

/-- JavaScript `isFinite` on a number. -/
def isFinite : JSNum → Bool
  | fin _ => true
  | _ => false

end JSNum

/-- The JavaScript `x || d` default idiom applied to a possibly-absent
numeric field: an absent (`undefined`) or falsy (0/NaN) value is replaced
by the default. -/
def jsOr (o : Option JSNum) (d : JSNum) : JSNum :=
  match o with
  | none => d
  | some x => if x.falsy then d else x

/-- The summary object consumed by `ecoScore` in Dashboard.jsx; only the two
fields the computation reads.  `Option` models an absent (`undefined`)
field. -/
structure Summary where
  total_emissions_grams : Option JSNum
  period_days : Option JSNum
deriving DecidableEq

/-- The piecewise bracket computation of Dashboard.jsx lines 188–206: the
`let score = 100` initialisation, the `if (avgDailyEmissions > 0)` guard and
the six-bracket chain, including the inner `Math.max(0, …)` of the last
bracket. -/
def bracketScore (avg : JSNum) : JSNum :=
  if avg.gt (.fin 0) then
    if avg.le (.fin (1/10)) then .fin 100
    else if avg.le (.fin (1/2)) then (JSNum.fin 100).sub (avg.mul (.fin 20))
    else if avg.le (.fin 1) then
      (JSNum.fin 90).sub ((avg.sub (.fin (1/2))).mul (.fin 10))
    else if avg.le (.fin 2) then
      (JSNum.fin 85).sub ((avg.sub (.fin 1)).mul (.fin 5))
    else if avg.le (.fin 5) then
      (JSNum.fin 80).sub ((avg.sub (.fin 2)).mul (.fin 10))
    else JSNum.max (.fin 0) ((JSNum.fin 50).sub ((avg.sub (.fin 5)).mul (.fin 10)))
  else .fin 100

/-- The `ecoScore` useMemo of Dashboard.jsx lines 169–214, embedded
statement by statement: the `!summary` default 85, the `|| 0` / `|| 7`
field defaults, the zero-emissions early return 100, the
`periodDays === 0 || isNaN(periodDays)` guard returning 85, the bracket
computation on `totalEmissions / periodDays`, the clamp
`Math.max(0, Math.min(100, score))`, `Math.round`, and the final
non-finite fallback returning 85. -/
def ecoScore (summary : Option Summary) : JSNum :=
  match summary with
  | none => .fin 85
  | some s =>
    let totalEmissions := jsOr s.total_emissions_grams (.fin 0)
    let periodDays := jsOr s.period_days (.fin 7)
    if totalEmissions.eqNum (.fin 0) then .fin 100
    else if periodDays.eqNum (.fin 0) || periodDays.isNaN then .fin 85
    else
      let avgDailyEmissions := totalEmissions.div periodDays
      let score := bracketScore avgDailyEmissions
      let clamped := JSNum.max (.fin 0) (JSNum.min (.fin 100) score)
      let result := clamped.round
      if result.isNaN || !result.isFinite then .fin 85 else result

/-- ℚ-level shadow of `bracketScore` at a finite average: the same
six-bracket piecewise function of Dashboard.jsx lines 188–206, on exact
rationals. -/
def rawScoreQ (a : ℚ) : ℚ :=
  if 0 < a then
    if a ≤ 1/10 then 100
    else if a ≤ 1/2 then 100 - a * 20
    else if a ≤ 1 then 90 - (a - 1/2) * 10
    else if a ≤ 2 then 85 - (a - 1) * 5
    else if a ≤ 5 then 80 - (a - 2) * 10
    else max 0 (50 - (a - 5) * 10)
  else 100

/-- ℚ-level shadow of the post-guard pipeline of `ecoScore`: bracket,
clamp to [0,100], round half-up. -/
def ecoScoreQ (a : ℚ) : ℤ := ⌊max 0 (min 100 (rawScoreQ a)) + 1/2⌋

/-- An activity-log record as consumed by `ActivityBreakdownChart` in
EmissionChart.jsx — the fields the aggregation reads.  `Option` models an
absent field; the numeric fields supplied by the backend are finite floats,
modelled as exact rationals. -/
structure ActivityLog where
  activity_type : Option String
  duration_seconds : Option ℚ
  co2_grams : Option ℚ
deriving DecidableEq

/-- The `x || d` default idiom on a possibly-absent rational field
(0 is falsy). -/
def jsOrQ (o : Option ℚ) (d : ℚ) : ℚ :=
  match o with
  | none => d
  | some q => if q = 0 then d else q

/-- The `x || d` default idiom on a possibly-absent string field
(the empty string is falsy). -/
def jsOrStr (o : Option String) (d : String) : String :=
  match o with
  | none => d
  | some s => if s = "" then d else s

/-- One bucket of the `activityMap` aggregation: accumulated seconds and
grams for one activity type.  The presentational `name`/`type`/gradient
fields of the source are omitted: they do not feed the percentages. -/
structure Bucket where
  value : ℚ
  emissions : ℚ
deriving DecidableEq

/-- The body of the `data.forEach` loop of EmissionChart.jsx lines 202–224:
insert-or-update the bucket keyed by the log's lower-cased activity type
(`'unknown'` when the field is absent or falsy), adding
`duration_seconds || 0` seconds and `co2_grams || 0` grams.  JavaScript
object keys keep insertion order, so the map is an association list. -/
def addLog (m : List (String × Bucket)) (log : ActivityLog) :
    List (String × Bucket) :=
  let t := (jsOrStr log.activity_type "unknown").toLower
  if m.any (fun p => p.1 == t) then
    m.map (fun p =>
      if p.1 = t then
        (p.1, ⟨p.2.value + jsOrQ log.duration_seconds 0,
               p.2.emissions + jsOrQ log.co2_grams 0⟩)
      else p)
  else
    m ++ [(t, ⟨jsOrQ log.duration_seconds 0, jsOrQ log.co2_grams 0⟩)]

/-- The `activityMap` built by the forEach loop. -/
def activityMap (data : List ActivityLog) : List (String × Bucket) :=
  data.foldl addLog []

/-- One element of `chartData`: minutes (rounded), emissions, and the
percentage filled in by the second pass. -/
structure BreakdownItem where
  value : ℤ
  emissions : ℚ
  percent : ℚ
deriving DecidableEq

/-- The first `chartData` pass of EmissionChart.jsx lines 227–234:
`Object.values(activityMap)`, the `item.value > 0` filter, and conversion
of seconds to rounded minutes (`Math.round(item.value / 60)`), with
`percent` initialised to 0 ("Will be calculated"). -/
def chartRounded (data : List ActivityLog) : List BreakdownItem :=
  (((activityMap data).map Prod.snd).filter (fun b => decide (0 < b.value))).map
    (fun b => ({ value := ⌊(b.value / 60 + 1/2 : ℚ)⌋, emissions := b.emissions,
                 percent := 0 } : BreakdownItem))

/-- The percentage pass of EmissionChart.jsx lines 236–240: the total of the
rounded-minute values and the guarded
`item.percent = total > 0 ? (item.value / total) * 100 : 0`. -/
def activityBreakdown (data : List ActivityLog) : List BreakdownItem :=
  let total := ((chartRounded data).map (fun it => it.value)).sum
  (chartRounded data).map (fun it =>
    { it with percent :=
        if 0 < total then ((it.value : ℚ) / (total : ℚ)) * 100 else 0 })

/-- JavaScript `s.padStart(2, '0')`: left-pad with zeros to length at
least 2 (longer strings are returned unchanged). -/
def padStart2 (s : String) : String :=
  String.mk (List.replicate (2 - s.length) '0') ++ s

/-- The `formatTime` helper of Analyzer.jsx lines 590–595.  The timer state
it is applied to is always a non-negative integer number of seconds
(`Math.floor((Date.now() - startTime) / 1000)`), so the input is ℕ and the
JavaScript `Math.floor` / `%` coincide with natural division and
remainder. -/
def formatTime (seconds : Nat) : String :=
  let hrs := seconds / 3600
  let mins := (seconds % 3600) / 60
  let secs := seconds % 60
  padStart2 (Nat.repr hrs) ++ ":" ++ padStart2 (Nat.repr mins) ++ ":"
    ++ padStart2 (Nat.repr secs)

/-- Modelled from the spec: the backend Emission Estimator of §4.1
(`estimate(activity_type, duration_seconds, metadata, cpu_percent)`) is not
among the source files under src/ (only the React frontend is present), so
its pieces are defined from the spec's words.  Quality metadata values. -/
inductive Quality where
  | low
  | medium
  | high
deriving DecidableEq

/-- Modelled from the spec (§4.1, backend estimator absent from src/):
device-type metadata values. -/
inductive DeviceType where
  | mobile
  | desktop
  | server
deriving DecidableEq

/-- Modelled from the spec (§4.1, backend estimator absent from src/):
optional quality/device metadata of an activity. -/
structure EstimateMetadata where
  quality : Option Quality
  device_type : Option DeviceType
deriving DecidableEq

/-- Modelled from the spec (§3, backend estimator absent from src/): the
EmissionResult record. -/
structure EmissionResult where
  energy_kwh : ℚ
  co2_grams : ℚ
  power_watts : ℚ
  cpu_load_factor : ℚ
deriving DecidableEq

/-- Modelled from the spec (§7, backend estimator absent from src/): the
estimator's validation-error taxonomy relevant to `estimate`. -/
inductive EstimateError where
  | InvalidActivityType
  | InvalidDuration
deriving DecidableEq

/-- Modelled from the spec (§4.1): grid-intensity constant, default
475 g CO₂ per kWh. -/
def GRID_INTENSITY : ℚ := 475

/-- Modelled from the spec (§4.1): the fixed base-power lookup table in
watts; unknown activity types yield none (→ InvalidActivityType). -/
def basePower (activity_type : String) : Option ℚ :=
  if activity_type = "youtube" then some 15
  else if activity_type = "ott" then some 18
  else if activity_type = "browsing" then some 8
  else if activity_type = "gmail" then some 5
  else if activity_type = "code_execution" then some 50
  else if activity_type = "idle" then some 3
  else none

/-- Modelled from the spec (§4.1): CPU load factor
clamp(cpu_percent / 50, 0.5, 2.0). -/
def cpuLoadFactor (cpu_percent : ℚ) : ℚ :=
  min 2 (max (1/2) (cpu_percent / 50))

/-- Modelled from the spec (§4.1): quality adjustment, high ×1.3, low ×0.7,
medium/absent ×1.0. -/
def qualityFactor : Option Quality → ℚ
  | some Quality.high => 13/10
  | some Quality.low => 7/10
  | _ => 1

/-- Modelled from the spec (§4.1): device adjustment, mobile ×0.5,
server ×1.5, desktop/absent ×1.0. -/
def deviceFactor : Option DeviceType → ℚ
  | some DeviceType.mobile => 1/2
  | some DeviceType.server => 3/2
  | _ => 1

/-- Modelled from the spec (§4.1): effective power =
base_power × cpu_load_factor × quality_factor × device_factor. -/
def effectivePower (base : ℚ) (metadata : EstimateMetadata)
    (cpu_percent : ℚ) : ℚ :=
  base * cpuLoadFactor cpu_percent * qualityFactor metadata.quality
    * deviceFactor metadata.device_type

/-- Modelled from the spec (§4.1): energy_kwh =
effective_power_watts × (duration_seconds / 3600) / 1000. -/
def energyOf (power_watts duration_seconds : ℚ) : ℚ :=
  power_watts * (duration_seconds / 3600) / 1000

/-- Modelled from the spec: the backend `estimate` contract of §4.1 is not
among the source files under src/; defined from the spec's words: reject
unknown activity types and negative durations, otherwise return the
EmissionResult with co2_grams = energy_kwh × GRID_INTENSITY. -/
def estimate (activity_type : String) (duration_seconds : ℚ)
    (metadata : EstimateMetadata) (cpu_percent : ℚ) :
    Except EstimateError EmissionResult :=
  match basePower activity_type with
  | none => .error .InvalidActivityType
  | some base =>
    if duration_seconds < 0 then .error .InvalidDuration
    else
      .ok ⟨energyOf (effectivePower base metadata cpu_percent) duration_seconds,
           energyOf (effectivePower base metadata cpu_percent) duration_seconds
             * GRID_INTENSITY,
           effectivePower base metadata cpu_percent,
           cpuLoadFactor cpu_percent⟩

theorem bracketScore_fin (a : ℚ) : bracketScore (.fin a) = .fin (rawScoreQ a) := by
  simp only [bracketScore, rawScoreQ, JSNum.gt, JSNum.lt, JSNum.le, JSNum.sub,
    JSNum.mul, JSNum.max, decide_eq_true_eq]
  split_ifs <;> rfl

theorem rawScoreQ_nonneg (a : ℚ) : 0 ≤ rawScoreQ a := by
  unfold rawScoreQ
  split_ifs <;> first | linarith | exact le_max_left 0 _

theorem rawScoreQ_le_100 (a : ℚ) : rawScoreQ a ≤ 100 := by
  unfold rawScoreQ
  split_ifs <;> first | linarith | exact max_le (by norm_num) (by linarith)

theorem rawScoreQ_antitone {a b : ℚ} (ha : 0 < a) (hab : a ≤ b) :
    rawScoreQ b ≤ rawScoreQ a := by
  have hb : 0 < b := lt_of_lt_of_le ha hab
  unfold rawScoreQ
  split_ifs <;>
    first
      | linarith
      | (apply max_le <;> linarith)
      | exact max_le (le_max_left 0 _) (le_max_of_le_right (by linarith))

theorem ecoScoreQ_antitone {a b : ℚ} (ha : 0 < a) (hab : a ≤ b) :
    ecoScoreQ b ≤ ecoScoreQ a := by
  unfold ecoScoreQ
  have h := rawScoreQ_antitone ha hab
  have h2 : max 0 (min 100 (rawScoreQ b)) + 1/2
      ≤ max 0 (min 100 (rawScoreQ a)) + 1/2 := by
    have hm := min_le_min (le_refl (100:ℚ)) h
    have hM := max_le_max (le_refl (0:ℚ)) hm
    linarith
  exact Int.floor_mono h2

theorem ecoScoreQ_nonneg (a : ℚ) : 0 ≤ ecoScoreQ a := by
  unfold ecoScoreQ
  rw [Int.le_floor]
  have h := le_max_left (0:ℚ) (min 100 (rawScoreQ a))
  push_cast
  linarith

theorem ecoScoreQ_le_100 (a : ℚ) : ecoScoreQ a ≤ 100 := by
  unfold ecoScoreQ
  have h1 : min (100:ℚ) (rawScoreQ a) ≤ 100 := min_le_left _ _
  have h2 : max (0:ℚ) (min 100 (rawScoreQ a)) ≤ 100 := max_le (by norm_num) h1
  calc ⌊max (0:ℚ) (min 100 (rawScoreQ a)) + 1/2⌋
      ≤ ⌊(201:ℚ)/2⌋ := Int.floor_mono (by linarith)
    _ = 100 := by norm_num

/-- Evaluation of `ecoScore` on a summary with finite positive total
emissions and finite positive period: the guards fall through and the
result is the bracket-clamp-round pipeline at `t / d`. -/
theorem ecoScore_posFin {t d : ℚ} (ht : 0 < t) (hd : 0 < d) :
    ecoScore (some ⟨some (.fin t), some (.fin d)⟩)
      = .fin ((ecoScoreQ (t / d) : ℤ) : ℚ) := by
  have ht' : t ≠ 0 := ne_of_gt ht
  have hd' : d ≠ 0 := ne_of_gt hd
  simp only [ecoScore, jsOr, JSNum.falsy, JSNum.eqNum, JSNum.isNaN,
    JSNum.isFinite, JSNum.div, JSNum.min, JSNum.max, JSNum.round,
    bracketScore_fin, ecoScoreQ, decide_eq_true_eq, Bool.or_eq_true, ht', hd',
    if_neg, if_false, ite_false, Bool.not_true, Bool.or_false, Bool.false_or]
  simp [ht', hd', bracketScore_fin]

/-- Every value of `bracketScore` is a finite rational in [0, 100]; even a
NaN or infinite average is mapped into the range (NaN and -∞ fail the
`avg > 0` guard and keep the initial 100; +∞ falls into the last bracket
whose inner `Math.max(0, …)` clamps the -∞ product to 0). -/
theorem bracketScore_bound (x : JSNum) :
    ∃ q : ℚ, bracketScore x = .fin q ∧ 0 ≤ q ∧ q ≤ 100 := by
  cases x with
  | nan => exact ⟨100, by with_unfolding_all rfl, by norm_num, by norm_num⟩
  | ninf => exact ⟨100, by with_unfolding_all rfl, by norm_num, by norm_num⟩
  | inf => exact ⟨0, by with_unfolding_all rfl, le_refl 0, by norm_num⟩
  | fin a => exact ⟨rawScoreQ a, bracketScore_fin a, rawScoreQ_nonneg a,
      rawScoreQ_le_100 a⟩

/-- Every value of `ecoScore` is a finite integer in [0, 100] ∪ {85, 100}
defaults — in particular always the embedding of an integer n with
0 ≤ n ≤ 100. -/
theorem ecoScore_bound (s : Option Summary) :
    ∃ n : ℤ, ecoScore s = .fin (n : ℚ) ∧ 0 ≤ n ∧ n ≤ 100 := by
  cases s with
  | none => exact ⟨85, by norm_num [ecoScore], by norm_num, by norm_num⟩
  | some s =>
    obtain ⟨q, hq, h0, h100⟩ := bracketScore_bound
      ((jsOr s.total_emissions_grams (.fin 0)).div (jsOr s.period_days (.fin 7)))
    simp only [ecoScore, hq, JSNum.min, JSNum.max, JSNum.round, JSNum.isNaN,
      JSNum.isFinite, Bool.not_true, Bool.or_false, Bool.false_or]
    split_ifs <;>
      first
        | exact ⟨100, rfl, by norm_num, by norm_num⟩
        | exact ⟨85, rfl, by norm_num, by norm_num⟩
        | exact ⟨⌊max 0 (min 100 q) + 1/2⌋, rfl,
            by
              rw [Int.le_floor]
              have h := le_max_left (0:ℚ) (min 100 q)
              push_cast
              linarith,
            by
              have h1 : min (100:ℚ) q ≤ 100 := min_le_left _ _
              have h2 : max (0:ℚ) (min 100 q) ≤ 100 := max_le (by norm_num) h1
              calc ⌊max (0:ℚ) (min 100 q) + 1/2⌋
                  ≤ ⌊(201:ℚ)/2⌋ := Int.floor_mono (by linarith)
                _ = 100 := by norm_num⟩

/-- Claim C1, counterexample: a non-finite intermediate value does not fall
back to the defined default 100.  With total_emissions_grams = Infinity over
7 days the average-daily intermediate is +Infinity, yet the computation
returns 0 (the last bracket's inner clamp), not 100. -/
theorem ecoScore_nonfinite_not_100 :
    JSNum.inf.div (.fin 7) = JSNum.inf
      ∧ ecoScore (some ⟨some .inf, some (.fin 7)⟩) = .fin 0
      ∧ ecoScore (some ⟨some .inf, some (.fin 7)⟩) ≠ .fin 100 := by
  refine ⟨by with_unfolding_all rfl, by with_unfolding_all rfl, ?_⟩
  have h0 : ecoScore (some ⟨some .inf, some (.fin 7)⟩) = .fin 0 := by
    with_unfolding_all rfl
  rw [h0]
  intro h
  exact absurd (JSNum.fin.inj h) (by norm_num)

/-- Claim C1 (amended): the eco-score computation never returns NaN — for
every summary input the result is a finite number.  A non-finite
intermediate does not trigger a fallback to 100: the code's explicit
fallback constant is 85 and is unreachable; an infinite average flows
through the brackets and clamp to a finite score instead. -/
theorem ecoScore_never_nan (s : Option Summary) :
    (ecoScore s).isNaN = false ∧ (ecoScore s).isFinite = true := by
  obtain ⟨n, h, -, -⟩ := ecoScore_bound s
  rw [h]
  exact ⟨rfl, rfl⟩

/-- Claim C2, counterexample: with total emissions 10 g > 0 and
period_days = 0 the computation does not fail with InvalidPeriod — the
`summary.period_days || 7` default replaces the falsy zero before the
(dead) zero-check is reached, and the ordinary score 83 for 10 g over the
default 7-day period is returned. -/
theorem ecoScore_zero_days_returns_score :
    ecoScore (some ⟨some (.fin 10), some (.fin 0)⟩) = .fin 83 := by
  with_unfolding_all rfl

/-- Claim C2 (amended): a zero day count is silently replaced by the
default 7 (`summary.period_days || 7`), so for every total-emissions field
the result with period_days = 0 equals the result with period_days = 7;
no InvalidPeriod error exists and no division by zero occurs. -/
theorem ecoScore_zero_days_as_seven (t : Option JSNum) :
    ecoScore (some ⟨t, some (.fin 0)⟩) = ecoScore (some ⟨t, some (.fin 7)⟩) := by
  with_unfolding_all rfl

/-- Claim C3: a summary totaling 10 grams over 7 days (average daily
≈ 1.43 g/day, in the (1, 2] bracket) gets eco score exactly 83
(85 − (10/7 − 1)·5 = 580/7 ≈ 82.86, rounded to nearest). -/
theorem ecoScore_ten_grams_seven_days :
    ecoScore (some ⟨some (.fin 10), some (.fin 7)⟩) = .fin 83 := by
  with_unfolding_all rfl

/-- Claim C4: when the summary's total emissions are zero — the case an
empty list of daily summaries produces (field 0, or absent and defaulted
to 0) — the eco score is exactly 100, for every period field. -/
theorem ecoScore_zero_emissions_100 (s : Summary)
    (h : s.total_emissions_grams = none
      ∨ s.total_emissions_grams = some (.fin 0)) :
    ecoScore (some s) = .fin 100 := by
  obtain ⟨t, d⟩ := s
  rcases h with h | h <;> (simp only at h; subst h; with_unfolding_all rfl)

theorem ecoScore_zero_emissions_100_witness :
    ((⟨some (.fin 0), some (.fin 3)⟩ : Summary).total_emissions_grams = none
        ∨ (⟨some (.fin 0), some (.fin 3)⟩ : Summary).total_emissions_grams
            = some (.fin 0))
      ∧ ecoScore (some ⟨some (.fin 0), some (.fin 3)⟩) = .fin 100 :=
  ⟨Or.inr rfl,
    ecoScore_zero_emissions_100 ⟨some (.fin 0), some (.fin 3)⟩ (Or.inr rfl)⟩

/-- Claim C5: the eco score is monotonically non-increasing in average
daily emissions: for any two summaries with positive finite totals and
day counts, if the first's average t1/d1 is at most the second's t2/d2,
then the second's score is at most the first's, across all brackets and
their boundaries. -/
theorem ecoScore_antitone (t1 d1 t2 d2 : ℚ) (ht1 : 0 < t1) (hd1 : 0 < d1)
    (ht2 : 0 < t2) (hd2 : 0 < d2) (havg : t1 / d1 ≤ t2 / d2) :
    (ecoScore (some ⟨some (.fin t2), some (.fin d2)⟩)).le
      (ecoScore (some ⟨some (.fin t1), some (.fin d1)⟩)) = true := by
  rw [ecoScore_posFin ht2 hd2, ecoScore_posFin ht1 hd1]
  simp only [JSNum.le, decide_eq_true_eq]
  exact_mod_cast ecoScoreQ_antitone (div_pos ht1 hd1) havg

theorem ecoScore_antitone_witness :
    (0 < (1:ℚ) ∧ 0 < (1:ℚ) ∧ 0 < (10:ℚ) ∧ 0 < (7:ℚ) ∧ (1:ℚ)/1 ≤ 10/7)
      ∧ (ecoScore (some ⟨some (.fin 10), some (.fin 7)⟩)).le
          (ecoScore (some ⟨some (.fin 1), some (.fin 1)⟩)) = true :=
  ⟨⟨by norm_num, by norm_num, by norm_num, by norm_num, by norm_num⟩,
    ecoScore_antitone 1 1 10 7 (by norm_num) (by norm_num) (by norm_num)
      (by norm_num) (by norm_num)⟩

/-- Claim C6: for every summary input the eco score is the embedding of an
integer n with 0 ≤ n ≤ 100: the raw piecewise score is clamped to [0, 100]
and rounded to the nearest integer before being returned. -/
theorem ecoScore_int_in_range (s : Option Summary) :
    ∃ n : ℤ, ecoScore s = .fin (n : ℚ) ∧ 0 ≤ n ∧ n ≤ 100 :=
  ecoScore_bound s

/-- Claim C8: when no summary object has been loaded at all (null/absent,
as opposed to an empty list of daily summaries), the eco score is the
default 85 — not 100 and not an error. -/
theorem ecoScore_no_summary_85 :
    ecoScore none = .fin 85 ∧ ecoScore none ≠ .fin 100 := by
  refine ⟨rfl, ?_⟩
  intro h
  exact absurd (JSNum.fin.inj h) (by norm_num)

theorem chartRounded_value_nonneg (data : List ActivityLog) :
    ∀ it ∈ chartRounded data, 0 ≤ it.value := by
  intro it hit
  simp only [chartRounded, List.mem_map] at hit
  obtain ⟨b, hb, rfl⟩ := hit
  simp only [List.mem_filter, decide_eq_true_eq] at hb
  have hbv : 0 < b.value := hb.2
  dsimp only
  rw [Int.le_floor]
  push_cast
  have hdiv : 0 < b.value / 60 := by positivity
  linarith

/-- Claim C9: in the activity-breakdown aggregation, every computed
per-activity percentage lies in [0, 100] (in this exact-arithmetic model in
particular it is a well-defined finite rational, never NaN), and the
division by the rounded-minute total is guarded: when the total is not
positive every percentage is 0. -/
theorem activityBreakdown_percent_in_range (data : List ActivityLog)
    (it : BreakdownItem) (hmem : it ∈ activityBreakdown data) :
    0 ≤ it.percent ∧ it.percent ≤ 100 := by
  simp only [activityBreakdown, List.mem_map] at hmem
  obtain ⟨it0, hit0, rfl⟩ := hmem
  dsimp only
  set S : ℤ := ((chartRounded data).map (fun it => it.value)).sum with hS
  by_cases hpos : 0 < S
  · rw [if_pos hpos]
    have hv0 : 0 ≤ it0.value := chartRounded_value_nonneg data it0 hit0
    have hvt : it0.value ≤ S := by
      rw [hS]
      apply List.single_le_sum
      · intro x hx
        simp only [List.mem_map] at hx
        obtain ⟨y, hy, rfl⟩ := hx
        exact chartRounded_value_nonneg data y hy
      · exact List.mem_map_of_mem _ hit0
    have h2 : (0:ℚ) < (S : ℚ) := by exact_mod_cast hpos
    constructor
    · have h1 : (0:ℚ) ≤ (it0.value : ℚ) := by exact_mod_cast hv0
      exact mul_nonneg (div_nonneg h1 h2.le) (by norm_num)
    · have h3 : (it0.value : ℚ) ≤ (S : ℚ) := by exact_mod_cast hvt
      have h4 := (div_le_one h2).mpr h3
      linarith
  · rw [if_neg hpos]
    norm_num

theorem activityBreakdown_percent_in_range_witness :
    ((⟨2, 1, 100⟩ : BreakdownItem)
        ∈ activityBreakdown [⟨some "youtube", some 120, some 1⟩])
      ∧ 0 ≤ ((⟨2, 1, 100⟩ : BreakdownItem)).percent
      ∧ ((⟨2, 1, 100⟩ : BreakdownItem)).percent ≤ 100 := by
  have heval : activityBreakdown [⟨some "youtube", some 120, some 1⟩]
      = [⟨2, 1, 100⟩] := by
    with_unfolding_all rfl
  have hm : (⟨2, 1, 100⟩ : BreakdownItem)
      ∈ activityBreakdown [⟨some "youtube", some 120, some 1⟩] := by
    rw [heval]
    exact List.mem_singleton.mpr rfl
  have h := activityBreakdown_percent_in_range
    [⟨some "youtube", some 120, some 1⟩] ⟨2, 1, 100⟩ hm
  exact ⟨hm, h.1, h.2⟩

/-- Claim C10: `formatTime` decomposes its input exactly: for every
non-negative integer s it returns the zero-padded "HH:MM:SS" string whose
fields are HH = s / 3600, MM = (s mod 3600) / 60, SS = s mod 60, and these
satisfy HH·3600 + MM·60 + SS = s with MM < 60 and SS < 60. -/
theorem formatTime_decomposes (s : Nat) :
    ∃ h m sec : Nat,
      formatTime s
          = padStart2 (Nat.repr h) ++ ":" ++ padStart2 (Nat.repr m) ++ ":"
              ++ padStart2 (Nat.repr sec)
        ∧ h = s / 3600 ∧ m = (s % 3600) / 60 ∧ sec = s % 60
        ∧ h * 3600 + m * 60 + sec = s ∧ m < 60 ∧ sec < 60 :=
  ⟨s / 3600, (s % 3600) / 60, s % 60, rfl, rfl, rfl, rfl, by omega, by omega,
    by omega⟩

theorem basePower_nonneg {a : String} {b : ℚ} (h : basePower a = some b) :
    0 ≤ b := by
  unfold basePower at h
  split_ifs at h <;>
    first
      | exact Option.noConfusion h
      | (rw [← Option.some.inj h]; norm_num)

theorem cpuLoadFactor_nonneg (c : ℚ) : 0 ≤ cpuLoadFactor c := by
  unfold cpuLoadFactor
  have h1 : (0:ℚ) ≤ 1/2 := by norm_num
  exact le_min (by norm_num) (le_trans h1 (le_max_left _ _))

theorem qualityFactor_nonneg (q : Option Quality) : 0 ≤ qualityFactor q := by
  cases q with
  | none => norm_num [qualityFactor]
  | some q => cases q <;> norm_num [qualityFactor]

theorem deviceFactor_nonneg (d : Option DeviceType) : 0 ≤ deviceFactor d := by
  cases d with
  | none => norm_num [deviceFactor]
  | some d => cases d <;> norm_num [deviceFactor]

theorem effectivePower_nonneg {base : ℚ} (hb : 0 ≤ base)
    (metadata : EstimateMetadata) (c : ℚ) :
    0 ≤ effectivePower base metadata c := by
  unfold effectivePower
  exact mul_nonneg
    (mul_nonneg (mul_nonneg hb (cpuLoadFactor_nonneg c))
      (qualityFactor_nonneg _)) (deviceFactor_nonneg _)

theorem energyOf_nonneg {p dur : ℚ} (hp : 0 ≤ p) (hd : 0 ≤ dur) :
    0 ≤ energyOf p dur := by
  unfold energyOf
  positivity

/-- Claim C7: for every valid activity type (one the base-power table
recognises, so that `estimate` succeeds) and every duration ≥ 0, the result
has energy_kwh ≥ 0 and co2_grams ≥ 0, and the two are exactly proportional:
co2_grams = energy_kwh × GRID_INTENSITY (475 g/kWh). -/
theorem estimate_nonneg_proportional (activity_type : String)
    (duration_seconds : ℚ) (metadata : EstimateMetadata) (cpu_percent : ℚ)
    (r : EmissionResult) (hdur : 0 ≤ duration_seconds)
    (hok : estimate activity_type duration_seconds metadata cpu_percent
      = .ok r) :
    0 ≤ r.energy_kwh ∧ 0 ≤ r.co2_grams
      ∧ r.co2_grams = r.energy_kwh * GRID_INTENSITY := by
  unfold estimate at hok
  cases hbp : basePower activity_type with
  | none =>
    rw [hbp] at hok
    exact Except.noConfusion hok
  | some base =>
    rw [hbp] at hok
    dsimp only at hok
    rw [if_neg (not_lt.mpr hdur)] at hok
    injection hok with h
    subst h
    refine ⟨?_, ?_, rfl⟩
    · exact energyOf_nonneg
        (effectivePower_nonneg (basePower_nonneg hbp) metadata cpu_percent)
        hdur
    · exact mul_nonneg
        (energyOf_nonneg
          (effectivePower_nonneg (basePower_nonneg hbp) metadata cpu_percent)
          hdur)
        (by norm_num [GRID_INTENSITY])

theorem estimate_nonneg_proportional_witness :
    0 ≤ (3600:ℚ)
      ∧ estimate "youtube" 3600 ⟨none, none⟩ 50 = .ok ⟨3/200, 57/8, 15, 1⟩
      ∧ (0 ≤ (⟨3/200, 57/8, 15, 1⟩ : EmissionResult).energy_kwh
          ∧ 0 ≤ (⟨3/200, 57/8, 15, 1⟩ : EmissionResult).co2_grams
          ∧ (⟨3/200, 57/8, 15, 1⟩ : EmissionResult).co2_grams
              = (⟨3/200, 57/8, 15, 1⟩ : EmissionResult).energy_kwh
                  * GRID_INTENSITY) := by
  have hok : estimate "youtube" 3600 ⟨none, none⟩ 50
      = .ok ⟨3/200, 57/8, 15, 1⟩ := by
    with_unfolding_all rfl
  exact ⟨by norm_num, hok,
    estimate_nonneg_proportional "youtube" 3600 ⟨none, none⟩ 50
      ⟨3/200, 57/8, 15, 1⟩ (by norm_num) hok⟩
